import Mathlib

/-!
Verification development for the StcoksAvg repository: a shallow embedding
of the moving-average / recommendation pipeline of `stock_info.py`,
`fno_stocks.py` and `nifty_next_50_stocks.py`, with theorems settling the
specification claims about it.

External effects (network fetches of price tables, the provider info
dictionary, the NSE CSV directory) are modelled as explicit oracle values:
an `Except String _` models a call that can raise (the string is the
exception text), an `Option` models a `None`/empty outcome.  Price values
are modelled as rationals; a raw provider column holds `Option ℚ` entries
where `none` stands for a non-numeric cell (dropped by
`pd.to_numeric(..., errors="coerce").dropna()`).
-/

set_option maxRecDepth 8192

namespace StocksAvg

/-! ### String primitives

Python string operations are modelled over the character list of a
`String` (ASCII suffices for ticker symbols and column names). -/

/-- Python `str.upper()`. -/
def pyUpper (s : String) : String :=
  ⟨s.data.map Char.toUpper⟩

/-- Whitespace characters removed by Python `str.strip()`. -/
def wsChar (c : Char) : Bool :=
  c = ' ' || c = '\t' || c = '\n' || c = '\r'

/-- Python `str.strip()`. -/
def pyStrip (s : String) : String :=
  ⟨((s.data.dropWhile wsChar).reverse.dropWhile wsChar).reverse⟩

/-- Python `pat in s` (substring containment), over character lists. -/
def containsSub (pat : List Char) : List Char → Bool
  | [] => pat.isEmpty
  | a :: t => pat.isPrefixOf (a :: t) || containsSub pat t

/-- Python `c in s` for a single character. -/
def hasChar (s : String) (c : Char) : Bool :=
  s.data.contains c

/-! ### Series primitives -/

/-- `pd.to_numeric(series, errors="coerce").dropna()`: keep numeric entries. -/
def cleanSeries (raw : List (Option ℚ)) : List ℚ :=
  raw.filterMap id

/-- Arithmetic mean of a list of rationals (`series.mean()`). -/
def mean (l : List ℚ) : ℚ :=
  l.sum / l.length

/-- `series.tail(n)`: the last `n` elements (all of them when shorter). -/
def lastN (n : Nat) (l : List ℚ) : List ℚ :=
  l.drop (l.length - n)

/-! ### Column model and the column-selection policies

A provider table column: its effective name (for a pandas MultiIndex column
the code uses the last tuple component as the name), whether
`pd.api.types.is_numeric_dtype` holds for it, and its raw values. -/

structure Col where
  name : String
  numeric : Bool
  values : List (Option ℚ)
deriving DecidableEq, Repr

/-- `"Close" in name` (Python substring test). -/
def containsClose (s : String) : Bool :=
  containsSub "Close".data s.data

/-- First numeric column (`numeric_cols[0]` fallback). -/
def firstNumeric (cols : List Col) : Option Col :=
  cols.find? (·.numeric)

/-- Column choice of `get_200_week_average` (stock_info.py lines 34-54):
candidates are all columns whose name contains `"Close"`; among them the
first named exactly `"Adj Close"` wins, else the first candidate; with no
candidate, the first numeric column. -/
def select200w (cols : List Col) : Option Col :=
  let cands := cols.filter (fun c => containsClose c.name)
  if cands.isEmpty then
    firstNumeric cols
  else
    match cands.find? (fun c => c.name = "Adj Close") with
    | some c => some c
    | none => cands.head?

/-- The scan loop of `get_daily_series` (lines 121-128): `break` on the
first `"Close"`, otherwise remember the latest `"Adj Close"` seen. -/
def selectDailyLoop : List Col → Option Col → Option Col
  | [], acc => acc
  | c :: rest, acc =>
    if c.name = "Close" then some c
    else if c.name = "Adj Close" then selectDailyLoop rest (some c)
    else selectDailyLoop rest acc

/-- Column choice of `get_daily_series`, numeric fallback included. -/
def selectDaily (cols : List Col) : Option Col :=
  match selectDailyLoop cols none with
  | some c => some c
  | none => firstNumeric cols

/-- The scan loop shared by `get_all_averages` (lines 264-270),
`_calculate_moving_average` (lines 212-218) and the two batch fetchers:
remember each `"Close"`/`"Adj Close"` column, `break` on the first
`"Adj Close"`. -/
def selectPrefLoop : List Col → Option Col → Option Col
  | [], acc => acc
  | c :: rest, acc =>
    if c.name = "Adj Close" then some c
    else if c.name = "Close" then selectPrefLoop rest (some c)
    else selectPrefLoop rest acc

/-- Column choice of `get_all_averages` / `_calculate_moving_average`,
numeric fallback included. -/
def selectPref (cols : List Col) : Option Col :=
  match selectPrefLoop cols none with
  | some c => some c
  | none => firstNumeric cols

/-- Column choice of the batch fetchers' `fetch_stock_data`: same scan, but
no numeric fallback (a miss falls through to `no_data`). -/
def selectBatch (cols : List Col) : Option Col :=
  selectPrefLoop cols none

/-- The column-selection policy as the specification words it: the
adjusted-close field if present, otherwise the plain close field, otherwise
the first numeric field. -/
def specSelect (cols : List Col) : Option Col :=
  match cols.find? (fun c => c.name = "Adj Close") with
  | some c => some c
  | none =>
    match cols.find? (fun c => c.name = "Close") with
    | some c => some c
    | none => firstNumeric cols

/-! ### Recommendation model

The recommendation texts are distinct string literals in the source; they
are embedded as constructors.  `latestPriceOnly p` stands for the
formatted `f"Latest price: ₹{p:.2f}"` string of `get_all_averages`. -/

inductive RecType
  | buy
  | avoid
  | neutral
deriving DecidableEq, Repr

inductive Msg
  /-- "Insufficient data to form a recommendation" (`get_200_week_average`). -/
  | insufficient200w
  /-- "Good to buy — price is below the 200-week average". -/
  | buy200w
  /-- "Do not buy — price is above the 200-week average". -/
  | avoid200w
  /-- "Price equals the 200-week average". -/
  | equal200w
  /-- `f"Latest price: ₹{latest_price:.2f}"` (`get_all_averages`). -/
  | latestPriceOnly (p : ℚ)
  /-- "Insufficient data" (`get_all_averages`). -/
  | insufficientAll
  /-- "✓ Good to buy — price is below 200-week avg". -/
  | buyAll
  /-- "✗ Do not buy — price is above 200-week avg". -/
  | avoidAll
  /-- "Price equals 200-week avg". -/
  | equalAll
deriving DecidableEq, Repr

/-- Whether a message is one of the two insufficient-data texts. -/
def Msg.isInsufficient : Msg → Bool
  | .insufficient200w => true
  | .insufficientAll => true
  | _ => false

/-- Recommendation derivation of `get_200_week_average` (lines 70-84). -/
def rec200 (latest avg : Option ℚ) : RecType × Msg :=
  match avg, latest with
  | some a, some lp =>
    if lp < a then (.buy, .buy200w)
    else if lp > a then (.avoid, .avoid200w)
    else (.neutral, .equal200w)
  | _, _ => (.neutral, .insufficient200w)

/-- Recommendation derivation of `get_all_averages` (lines 331-344); there
`latest_price` is always a real number by the time this runs, and the
missing-average branch shows the latest price unless it is `0.0`
(Python float truthiness). -/
def recAll (lp : ℚ) (avg : Option ℚ) : RecType × Msg :=
  match avg with
  | none => (.neutral, if lp = 0 then .insufficientAll else .latestPriceOnly lp)
  | some a =>
    if lp < a then (.buy, .buyAll)
    else if lp > a then (.avoid, .avoidAll)
    else (.neutral, .equalAll)

/-! ### The 200-week average computation -/

structure W200 where
  weeksAvailable : Nat
  weeksUsed : Nat
  avg200 : Option ℚ
  latest : Option ℚ
  diffPct : Option ℚ
  recType : RecType
  recText : Msg
deriving DecidableEq, Repr

/-- `avg_200 = float(last_200.mean()) if not last_200.empty else None`
(line 66), with `last_200 = series.tail(200)`. -/
def avg200OfSeries (s : List ℚ) : Option ℚ :=
  if (lastN 200 s).isEmpty then none else some (mean (lastN 200 s))

/-- `diff_pct` (line 75). -/
def diffPctOf (avg latest : Option ℚ) : Option ℚ :=
  match avg, latest with
  | some a, some lp => if a = 0 then none else some ((lp - a) / a * 100)
  | _, _ => none

/-- Core of `get_200_week_average` (lines 64-95) on the cleaned weekly
close series. -/
def get200weekCore (s : List ℚ) : W200 :=
  { weeksAvailable := s.length
    weeksUsed := min s.length 200
    avg200 := avg200OfSeries s
    latest := s.getLast?
    diffPct := diffPctOf (avg200OfSeries s) s.getLast?
    recType := (rec200 s.getLast? (avg200OfSeries s)).1
    recText := (rec200 s.getLast? (avg200OfSeries s)).2 }

/-- `get_200_week_average` over the raw weekly fetch outcome: a raised
exception or an empty frame (modelled as the empty raw column) raises
"No weekly data found for ticker"; otherwise the cleaned series is
processed. -/
def get200week (weekly : Except String (List (Option ℚ))) : Except String W200 :=
  match weekly with
  | .error e => .error e
  | .ok raw =>
    if raw.isEmpty then .error "No weekly data found for ticker"
    else .ok (get200weekCore (cleanSeries raw))

/-! ### Daily moving averages -/

/-- `_calculate_moving_average` (lines 183-238) over the raw daily fetch
outcome for its selected close column: any exception or empty frame gives
`None`; with fewer cleaned samples than `days` gives `None`; otherwise the
mean of the last `days` samples (`tail(days)`, which is empty only when
`days = 0`). -/
def calcMA (fetch : Except String (List (Option ℚ))) (days : Nat) : Option ℚ :=
  match fetch with
  | .error _ => none
  | .ok raw =>
    if raw.isEmpty then none
    else
      let s := cleanSeries raw
      if s.length < days then none
      else
        let ld := lastN days s
        if ld.isEmpty then none else some (mean ld)

/-- Oracle bundle for one `get_moving_average` call: the provider info
value for the relevant key (`none` for missing or non-numeric), and the
daily series fetch backing the manual calculation. -/
structure MAEnv where
  info : Except String (Option ℚ)
  series : Except String (List (Option ℚ))
deriving Repr

/-- `get_moving_average` (lines 146-180): for 50 and 200 days a truthy
numeric info value wins; every other path (other windows, missing/zero/
non-numeric info value, or an exception, which the outer `try` turns into
the fallback) goes through `_calculate_moving_average`.  Total: it never
raises. -/
def getMA (env : MAEnv) (days : Nat) : Option ℚ :=
  match env.info with
  | .error _ => calcMA env.series days
  | .ok iv =>
    if days = 50 ∨ days = 200 then
      match iv with
      | some v => if v = 0 then calcMA env.series days else some v
      | none => calcMA env.series days
    else calcMA env.series days

/-! ### `get_all_averages` -/

/-- The latest-price block of `get_all_averages` (lines 246-288) over the
raw 10-day close column: the whole block sits in a `try` whose handler
re-raises `f"Failed to fetch latest price: {e}"`.  An empty frame raises
`f"No data found for ticker {ticker}"`, an all-dropped series raises
"No valid price data", otherwise the last cleaned value is the price. -/
def getLatestPrice (daily : Except String (List (Option ℚ))) (ticker : String) :
    Except String ℚ :=
  match daily with
  | .error e => .error ("Failed to fetch latest price: " ++ e)
  | .ok raw =>
    if raw.isEmpty then
      .error ("Failed to fetch latest price: No data found for ticker " ++ ticker)
    else
      match (cleanSeries raw).getLast? with
      | none => .error "Failed to fetch latest price: No valid price data"
      | some p => .ok p

/-- Oracle bundle for one `get_all_averages` call: the 10-day close fetch,
one `MAEnv` per moving-average window, the weekly fetch behind
`get_200_week_average`, and the 52-week high/low info lookup (an exception
there is caught by the inner `try`). -/
structure AllEnv where
  daily10 : Except String (List (Option ℚ))
  ma5 : MAEnv
  ma20 : MAEnv
  ma50 : MAEnv
  ma100 : MAEnv
  ma200 : MAEnv
  weekly : Except String (List (Option ℚ))
  info52 : Except String (Option ℚ × Option ℚ)
deriving Repr

structure Snapshot where
  latestPrice : ℚ
  avg5d : Option ℚ
  avg20d : Option ℚ
  avg50d : Option ℚ
  avg100d : Option ℚ
  avg200d : Option ℚ
  avg200w : Option ℚ
  week52High : Option ℚ
  week52Low : Option ℚ
  recType : RecType
  recText : Msg
deriving DecidableEq, Repr

/-- `get_all_averages` (lines 241-359).  A latest-price failure is fatal.
The five daily averages go through the total `get_moving_average`.  The
200-week average is taken from `get_200_week_average`, whose exception is
caught by the enclosing `try` and re-raised as
`f"Failed to calculate averages: {e}"` — it aborts the call.  The 52-week
high/low lookup degrades to `None`s on failure. -/
def getAllAverages (ticker : String) (env : AllEnv) : Except String Snapshot :=
  match getLatestPrice env.daily10 ticker with
  | .error e => .error e
  | .ok lp =>
    let a5 := getMA env.ma5 5
    let a20 := getMA env.ma20 20
    let a50 := getMA env.ma50 50
    let a100 := getMA env.ma100 100
    let a200 := getMA env.ma200 200
    match get200week env.weekly with
    | .error e => .error ("Failed to calculate averages: " ++ e)
    | .ok r200 =>
      let w52 : Option ℚ × Option ℚ :=
        match env.info52 with
        | .error _ => (none, none)
        | .ok p => p
      let rm := recAll lp r200.avg200
      .ok
        { latestPrice := lp
          avg5d := a5
          avg20d := a20
          avg50d := a50
          avg100d := a100
          avg200d := a200
          avg200w := r200.avg200
          week52High := w52.1
          week52Low := w52.2
          recType := rm.1
          recText := rm.2 }

/-! ### Ticker normalization -/

/-- `any(x in ticker for x in [".", "=", "^", "-"])`. -/
def qualified (t : String) : Bool :=
  hasChar t '.' || hasChar t '=' || hasChar t '^' || hasChar t '-'

/-- `ticker.strip().upper()`. -/
def pyNormCase (raw : String) : String :=
  pyUpper (pyStrip raw)

/-- `normalize_ticker` (lines 362-388), with the live 5-day history probe
abstracted as `probe` (true when the probe frame is non-empty).  Returns
the canonical ticker together with the number of probes issued. -/
def normalizeTicker (probe : String → Bool) (raw : String) : String × Nat :=
  let t := pyNormCase raw
  if qualified t then (t, 0)
  else if probe t then (t, 1)
  else if probe (t ++ ".NS") then (t ++ ".NS", 2)
  else (t, 2)

/-- The ticker rewrite at the top of `get_200_week_average` (lines 9-12):
it does not call `normalize_ticker`; any unqualified symbol gets ".NS"
appended with no probe at all. -/
def ticker200w (raw : String) : String :=
  let t := pyNormCase raw
  if qualified t then t else t ++ ".NS"

/-! ### `get_daily_series` -/

/-- A fetched price frame: a shared date index and the columns, each
column's values aligned with the index. -/
structure Table where
  dates : List String
  cols : List Col
deriving Repr

/-- `get_daily_series` (lines 98-143) over the fetch outcome (`none` when
both the bulk and the per-symbol fetch came back empty).  Returns the
`(dates, closes)` pair; non-numeric entries are dropped from both lists
together. -/
def getDailySeries (t : Option Table) : List String × List ℚ :=
  match t with
  | none => ([], [])
  | some tbl =>
    match selectDaily tbl.cols with
    | none => ([], [])
    | some c =>
      let cleaned := (tbl.dates.zip c.values).filterMap
        (fun p => p.2.map (fun v => (p.1, v)))
      (cleaned.map Prod.fst, cleaned.map Prod.snd)

/-! ### Batch fetchers (`fno_stocks.py`, `nifty_next_50_stocks.py`) -/

inductive Status
  | success
  | noData
  /-- `f"error: {str(e)}"`. -/
  | err (msg : String)
deriving DecidableEq, Repr

structure Entry where
  symbol : String
  price : Option ℚ
  avg200w : Option ℚ
  status : Status
deriving DecidableEq, Repr

/-- Oracle bundle for one symbol of a batch fetch: the 5-day history frame
(`.error` for a raised exception, `.ok none` for a `None`/empty frame) and
the `get_200_week_average` outcome consumed by the inner `try`. -/
structure SymEnv where
  hist : Except String (Option Table)
  avg200 : Except String (Option ℚ)
deriving Repr

/-- `fetch_stock_data`, the per-symbol worker body, textually identical in
`fno_stocks.py` (lines 67-122) and `nifty_next_50_stocks.py` (lines
77-134): an exception anywhere in the outer `try` gives an error entry;
an empty frame, a missing Close/Adj Close column, or an all-dropped series
gives `no_data`; otherwise the last close is the price and a failing
200-week-average call only leaves `avg_200w` as `None`. -/
def fetchStockData (sym : String) (env : SymEnv) : Entry :=
  match env.hist with
  | .error e => ⟨sym, none, none, .err ("error: " ++ e)⟩
  | .ok none => ⟨sym, none, none, .noData⟩
  | .ok (some tbl) =>
    match selectBatch tbl.cols with
    | none => ⟨sym, none, none, .noData⟩
    | some c =>
      match (cleanSeries c.values).getLast? with
      | none => ⟨sym, none, none, .noData⟩
      | some lp =>
        let avg : Option ℚ :=
          match env.avg200 with
          | .error _ => none
          | .ok v => v
        ⟨sym, some lp, avg, .success⟩

/-- The query filter shared by both batch endpoints: an empty query keeps
the whole list, otherwise keep the symbols starting with the trimmed,
upper-cased query. -/
def filterQuery (stocks : List String) (q : String) : List String :=
  if q = "" then stocks
  else stocks.filter (fun s => (pyNormCase q).data.isPrefixOf s.data)

def FNO_STOCKS : List String := [
  "360ONE","ABB","ADANIENSOL","ADANIENT","ADANIGREEN","ADANIPORTS",
  "ABCAPITAL","ALKEM","AMBER","AMBUJACEM","ANGELONE","APLAPOLLO",
  "APOLLOHOSP","ASHOKLEY","ASIANPAINT","ASTRAL","AUBANK","AUROPHARMA",
  "DMART","AXISBANK","BAJAJ-AUTO","BAJFINANCE","BAJAJFINSV","BAJAJHLDNG",
  "BANDHANBNK","BANKBARODA","BANKINDIA","BDL","BEL","BHARATFORG",
  "BHEL","BPCL","BHARTIARTL","BIOCON","BLUESTARCO","BOSCHLTD",
  "BRITANNIA","BSE","CANBK","CDSL","CGPOWER","CHOLAFIN",
  "CIPLA","COALINDIA","COFORGE","COLPAL","CAMS","CONCOR",
  "CROMPTON","CUMMINSIND","DABUR","DALBHARAT","DELHIVERY","DIVISLAB",
  "DIXON","DLF","DRREDDY","EICHERMOT","EXIDEIND","FEDERALBNK",
  "FORTIS","NYKAA","GAIL","GLENMARK","GMRAIRPORT","GODREJCP",
  "GODREJPROP","GRASIM","HAVELLS","HCLTECH","HDFCAMC",
  "HDFCBANK","HDFCLIFE","HEROMOTOCO","HINDALCO","HAL",
  "HINDPETRO","HINDUNILVR","HINDZINC","POWERINDIA","HUDCO",
  "ICICIBANK","ICICIGI","ICICIPRULI","IDFCFIRSTB","INDIANB",
  "IEX","INDHOTEL","IOC","IRCTC","IRFC","IREDA",
  "INDUSTOWER","INDUSINDBK","NAUKRI","INFY","INOXWIND",
  "INDIGO","ITC","JINDALSTEL","JIOFIN","JSWENERGY","JSWSTEEL",
  "JUBLFOOD","KALYANKJIL","KAYNES","KEI","KFINTECH",
  "KOTAKBANK","KPITTECH","LTF","LT","LAURUSLABS",
  "LICHSGFIN","LICI","LTIM","LUPIN","LODHA",
  "M&M","MANAPPURAM","MANKIND","MARICO","MARUTI",
  "MFSL","MAXHEALTH","MAZDOCK","MPHASIS","MCX",
  "MUTHOOTFIN","NATIONALUM","NBCC","NESTLEIND","NHPC",
  "NMDC","NTPC","NUVAMA","OBEROIRLTY","ONGC",
  "OIL","PAYTM","OFSS","PIIND","PAGEIND",
  "PATANJALI","POLICYBZR","PERSISTENT","PETRONET","PGEL",
  "PHOENIXLTD","PIDILITIND","PPLPHARMA","PNBHOUSING","POLYCAB",
  "PFC","POWERGRID","PREMIERENE","PRESTIGE","PNB",
  "RVNL","RBLBANK","RECLTD","RELIANCE","SAMMAANCAP",
  "MOTHERSON","SBICARD","SBILIFE","SHREECEM","SHRIRAMFIN",
  "SIEMENS","SOLARINDS","SONACOMS","SRF","SBIN",
  "SAIL","SUNPHARMA","SUPREMEIND","SUZLON","SWIGGY",
  "SYNGENE","TCS","TATACONSUM","TATAELXSI","TMPV","TMCV",
  "TATAPOWER","TATASTEEL","TATATECH","TECHM","TITAN",
  "TORNTPHARM","TORNTPOWER","TRENT","TIINDIA","TVSMOTOR",
  "ULTRACEMCO","UNIONBANK","UNITDSPR","UNOMINDA","UPL",
  "VBL","VEDL","IDEA","VOLTAS","WAAREEENER",
  "WIPRO","YESBANK","ETERNAL","ZYDUSLIFE"]

def NIFTY_NEXT_50_STOCKS : List String := [
  "ABB","ADANIENSOL","ADANIGREEN","ADANIPOWER","AMBUJACEM","BAJAJHFL",
  "BAJAJHLDNG","BANKBARODA","BPCL","BRITANNIA","BOSCHLTD","CANBK",
  "CGPOWER","CHOLAFIN","DIVISLAB","DLF","DMART","ENRIN",
  "GAIL","GODREJCP","HAL","HAVELLS","HINDZINC","HYUNDAI",
  "ICICIGI","INDHOTEL","IOC","IRFC","JINDALSTEL","LICI",
  "LODHA","LTIM","MAZDOCK","MOTHERSON","NAUKRI","PFC",
  "PIDILITIND","PNB","RECLTD","SHREECEM","SIEMENS","SOLARINDS",
  "TATAPOWER","TORNTPHARM","TVSMOTOR","UNITDSPR","VBL","VEDL",
  "ZYDUSLIFE"]

/-- `get_fno_stocks_with_prices` (lines 51-130), with the thread pool's
completion-order nondeterminism fixed to input order: the multiset of
entries is the map of the per-symbol worker over the filtered list. -/
def getFnoStocksWithPrices (q : String) (env : String → SymEnv) : List Entry :=
  (filterQuery FNO_STOCKS q).map (fun s => fetchStockData s (env s))

/-- `get_nifty_next_50_stocks_with_prices` (lines 61-142), same shape. -/
def getNiftyNext50StocksWithPrices (q : String) (env : String → SymEnv) :
    List Entry :=
  (filterQuery NIFTY_NEXT_50_STOCKS q).map (fun s => fetchStockData s (env s))

/-! ### NSE directory cache (`fetch_nse_csv`, `search_nse_stocks`) -/

/-- One directory row: SYMBOL and NAME OF COMPANY. -/
abbrev DirRow := String × String

/-- The module-level `_nse_cache` dict: the last snapshot and its fetch
time (seconds). -/
structure CacheState where
  data : Option (List DirRow)
  timestamp : Option Nat
deriving DecidableEq, Repr

/-- `fetch_nse_csv` (lines 400-421): reuse the snapshot while younger than
3600 seconds; otherwise hit the remote source, caching on success and
raising `f"Failed to fetch NSE CSV: {e}"` on failure (the stale snapshot is
not consulted on failure).  Returns the frame and the updated cache. -/
def fetchNseCsv (cache : CacheState) (now : Nat)
    (remote : Except String (List DirRow)) :
    Except String (List DirRow × CacheState) :=
  let doFetch : Except String (List DirRow × CacheState) :=
    match remote with
    | .ok df => .ok (df, ⟨some df, some now⟩)
    | .error e => .error ("Failed to fetch NSE CSV: " ++ e)
  match cache.data, cache.timestamp with
  | some d, some ts => if now - ts < 3600 then .ok (d, cache) else doFetch
  | _, _ => doFetch

/-- Python's case-insensitive `str.contains` on a row field. -/
def containsCI (s pat : String) : Bool :=
  containsSub (pyUpper pat).data (pyUpper s).data

/-- The row filter + truncation of `search_nse_stocks` (lines 440-451). -/
def filterRows (rows : List DirRow) (pat : String) (limit : Nat) : List DirRow :=
  (rows.filter (fun r => containsCI r.1 pat || containsCI r.2 pat)).take limit

/-- `search_nse_stocks` (lines 424-452): empty/blank query gives `[]`; a
`fetch_nse_csv` exception is caught and gives `[]` (the stale snapshot is
not used); otherwise filter and truncate.  Returns the matches and the
cache state after the call. -/
def searchNseStocks (q : String) (limit : Nat) (cache : CacheState)
    (now : Nat) (remote : Except String (List DirRow)) :
    List DirRow × CacheState :=
  if q = "" ∨ pyStrip q = "" then ([], cache)
  else
    match fetchNseCsv cache now remote with
    | .error _ => ([], cache)
    | .ok (df, c') => (filterRows df (pyNormCase q) limit, c')

/-! ## Helper lemmas -/

theorem length_lastN (n : Nat) (l : List ℚ) :
    (lastN n l).length = l.length - (l.length - n) := by
  simp [lastN]

theorem lastN_isEmpty_false {n : Nat} {l : List ℚ} (hn : 0 < n)
    (hl : l.length ≠ 0) : (lastN n l).isEmpty = false := by
  have hlen := length_lastN n l
  cases hE : lastN n l with
  | nil => rw [hE] at hlen; simp at hlen; omega
  | cons a t => simp

theorem lastN_min (n : Nat) (l : List ℚ) :
    lastN (min l.length n) l = lastN n l := by
  simp only [lastN]
  rw [show l.length - min l.length n = l.length - n from by omega]

theorem find?_filter_eq (p q : Col → Bool) (l : List Col) :
    (l.filter p).find? q = l.find? (fun a => p a && q a) := by
  induction l with
  | nil => rfl
  | cons a t ih =>
    by_cases hp : p a
    · by_cases hq : q a <;>
        simp [List.filter_cons, List.find?_cons, hp, hq, ih]
    · simp [List.filter_cons, List.find?_cons, hp, ih]

theorem head?_filter_eq (p : Col → Bool) (l : List Col) :
    (l.filter p).head? = l.find? p := by
  induction l with
  | nil => rfl
  | cons a t ih =>
    by_cases hp : p a <;> simp [List.filter_cons, List.find?_cons, hp, ih]

theorem find?_congr_mem {p q : Col → Bool} {l : List Col}
    (h : ∀ a ∈ l, p a = q a) : l.find? p = l.find? q := by
  induction l with
  | nil => rfl
  | cons a t ih =>
    have ha := h a (List.mem_cons_self a t)
    have ht : ∀ a ∈ t, p a = q a := fun a hm => h a (List.mem_cons_of_mem _ hm)
    by_cases hp : p a
    · simp [List.find?_cons, hp, ha ▸ hp]
    · have hq : ¬ q a = true := by rw [← ha]; exact hp
      simp [List.find?_cons, hp, hq, ih ht]

/-- Under at most one `"Close"` column, the pref-scan loop (break on
`"Adj Close"`, remember the last `"Close"`) picks the first `"Adj Close"`,
else the unique `"Close"`, else its accumulator. -/
theorem selectPrefLoop_eq (cols : List Col) :
    ∀ acc, cols.countP (fun c => c.name = "Close") ≤ 1 →
      selectPrefLoop cols acc =
        (match cols.find? (fun c => c.name = "Adj Close") with
         | some c => some c
         | none =>
           match cols.find? (fun c => c.name = "Close") with
           | some c => some c
           | none => acc) := by
  induction cols with
  | nil => intro acc h; rfl
  | cons a t ih =>
    intro acc hcount
    by_cases hadj : a.name = "Adj Close"
    · simp [selectPrefLoop, List.find?_cons, hadj]
    · by_cases hcl : a.name = "Close"
      · rw [List.countP_cons] at hcount
        simp [hcl] at hcount
        have hfn : t.find? (fun c => c.name = "Close") = none := by
          rw [List.find?_eq_none]
          intro x hx
          simpa using hcount x hx
        have ht : t.countP (fun c => c.name = "Close") ≤ 1 := by
          have h0 : t.countP (fun c => c.name = "Close") = 0 :=
            List.countP_eq_zero.mpr (by intro x hx; simpa using hcount x hx)
          omega
        rw [show selectPrefLoop (a :: t) acc = selectPrefLoop t (some a) by
          simp [selectPrefLoop, hadj, hcl]]
        rw [ih (some a) ht, hfn]
        simp [List.find?_cons, hadj, hcl]
      · have ht : t.countP (fun c => c.name = "Close") ≤ 1 := by
          rw [List.countP_cons] at hcount
          simp [hcl] at hcount
          omega
        rw [show selectPrefLoop (a :: t) acc = selectPrefLoop t acc by
          simp [selectPrefLoop, hadj, hcl]]
        rw [ih acc ht]
        simp [List.find?_cons, hadj, hcl]

/-- Under at most one `"Adj Close"` column, the daily-scan loop (break on
`"Close"`, remember the last `"Adj Close"`) picks the first `"Close"`,
else the unique `"Adj Close"`, else its accumulator. -/
theorem selectDailyLoop_eq (cols : List Col) :
    ∀ acc, cols.countP (fun c => c.name = "Adj Close") ≤ 1 →
      selectDailyLoop cols acc =
        (match cols.find? (fun c => c.name = "Close") with
         | some c => some c
         | none =>
           match cols.find? (fun c => c.name = "Adj Close") with
           | some c => some c
           | none => acc) := by
  induction cols with
  | nil => intro acc h; rfl
  | cons a t ih =>
    intro acc hcount
    by_cases hcl : a.name = "Close"
    · simp [selectDailyLoop, List.find?_cons, hcl]
    · by_cases hadj : a.name = "Adj Close"
      · rw [List.countP_cons] at hcount
        simp [hadj] at hcount
        have hfn : t.find? (fun c => c.name = "Adj Close") = none := by
          rw [List.find?_eq_none]
          intro x hx
          simpa using hcount x hx
        have ht : t.countP (fun c => c.name = "Adj Close") ≤ 1 := by
          have h0 : t.countP (fun c => c.name = "Adj Close") = 0 :=
            List.countP_eq_zero.mpr (by intro x hx; simpa using hcount x hx)
          omega
        rw [show selectDailyLoop (a :: t) acc = selectDailyLoop t (some a) by
          simp [selectDailyLoop, hadj, hcl]]
        rw [ih (some a) ht, hfn]
        simp [List.find?_cons, hadj, hcl]
      · have ht : t.countP (fun c => c.name = "Adj Close") ≤ 1 := by
          rw [List.countP_cons] at hcount
          simp [hadj] at hcount
          omega
        rw [show selectDailyLoop (a :: t) acc = selectDailyLoop t acc by
          simp [selectDailyLoop, hadj, hcl]]
        rw [ih acc ht]
        simp [List.find?_cons, hadj, hcl]

theorem containsClose_adj : containsClose "Adj Close" = true := by decide

theorem containsClose_close : containsClose "Close" = true := by decide

theorem selectPref_eq_spec (cols : List Col)
    (h2 : cols.countP (fun c => c.name = "Close") ≤ 1) :
    selectPref cols = specSelect cols := by
  unfold selectPref specSelect
  rw [selectPrefLoop_eq cols none h2]
  rcases hadj : cols.find? (fun c => c.name = "Adj Close") with _ | c
  · rcases hcl : cols.find? (fun c => c.name = "Close") with _ | c
    · rw [hadj, hcl]
    · rw [hadj, hcl]
  · rw [hadj]

theorem selectDaily_eq (cols : List Col)
    (h1 : cols.countP (fun c => c.name = "Adj Close") ≤ 1) :
    selectDaily cols =
      (match cols.find? (fun c => c.name = "Close") with
       | some c => some c
       | none => specSelect cols) := by
  unfold selectDaily specSelect
  rw [selectDailyLoop_eq cols none h1]
  rcases hcl : cols.find? (fun c => c.name = "Close") with _ | c
  · rcases hadj : cols.find? (fun c => c.name = "Adj Close") with _ | d
    · rw [hcl, hadj]
    · rw [hcl, hadj]
  · rw [hcl]

theorem select200w_eq_spec (cols : List Col)
    (h3 : ∀ c ∈ cols, c.name = "Adj Close" ∨ c.name = "Close" ∨
      containsClose c.name = false) :
    select200w cols = specSelect cols := by
  unfold select200w specSelect
  by_cases hemp : (cols.filter (fun c => containsClose c.name)).isEmpty
  · have hnil : cols.filter (fun c => containsClose c.name) = [] :=
      List.isEmpty_iff.mp hemp
    have hnc : ∀ c ∈ cols, containsClose c.name = false := by
      intro c hc
      by_contra hcc
      have : c ∈ cols.filter (fun c => containsClose c.name) :=
        List.mem_filter.mpr ⟨hc, by simpa using hcc⟩
      simp [hnil] at this
    have hfadj : cols.find? (fun c => c.name = "Adj Close") = none := by
      rw [List.find?_eq_none]
      intro x hx h
      have hx2 := hnc x hx
      rw [show x.name = "Adj Close" by simpa using h] at hx2
      rw [containsClose_adj] at hx2
      exact Bool.true_eq_false.mp hx2
    have hfcl : cols.find? (fun c => c.name = "Close") = none := by
      rw [List.find?_eq_none]
      intro x hx h
      have hx2 := hnc x hx
      rw [show x.name = "Close" by simpa using h] at hx2
      rw [containsClose_close] at hx2
      exact Bool.true_eq_false.mp hx2
    simp [hemp, hfadj, hfcl]
  · simp only [hemp, Bool.false_eq_true, if_false]
    have hfind : (cols.filter (fun c => containsClose c.name)).find?
        (fun c => c.name = "Adj Close") =
        cols.find? (fun c => c.name = "Adj Close") := by
      rw [find?_filter_eq]
      apply find?_congr_mem
      intro a _
      by_cases h : a.name = "Adj Close"
      · rw [h]
        simp [containsClose_adj]
      · simp [h]
    rw [hfind]
    rcases hadj : cols.find? (fun c => c.name = "Adj Close") with _ | c
    · have hcongr : cols.find? (fun c => containsClose c.name) =
          cols.find? (fun c => c.name = "Close") := by
        apply find?_congr_mem
        intro a ha
        rcases h3 a ha with h | h | h
        · exfalso
          have := List.find?_eq_none.mp hadj a ha
          simp [h] at this
        · rw [h]
          simp [containsClose_close]
        · rw [h]
          by_cases hc : a.name = "Close"
          · rw [hc] at h
            rw [containsClose_close] at h
            simp at h
          · simp [hc]
      rw [head?_filter_eq, hcongr]
      rcases hcl : cols.find? (fun c => c.name = "Close") with _ | c
      swap
      · rw [hadj, hcl]
      · exfalso
        have hnone : cols.find? (fun c => containsClose c.name) = none := by
          rw [hcongr, hcl]
        have : cols.filter (fun c => containsClose c.name) = [] := by
          rcases hF : cols.filter (fun c => containsClose c.name) with _ | ⟨b, u⟩
          · exact hF
          · exfalso
            have hb : b ∈ cols.filter (fun c => containsClose c.name) := by
              rw [hF]; exact List.mem_cons_self b u
            have hmem := List.mem_filter.mp hb
            have := List.find?_eq_none.mp hnone b hmem.1
            exact this hmem.2
        rw [this] at hemp
        simp at hemp
    · rw [hadj]

theorem fetchStockData_symbol (s : String) (e : SymEnv) :
    (fetchStockData s e).symbol = s := by
  obtain ⟨h, a⟩ := e
  cases h with
  | error e1 => simp [fetchStockData]
  | ok od =>
    cases od with
    | none => simp [fetchStockData]
    | some tbl =>
      cases hsel : selectBatch tbl.cols with
      | none => simp [fetchStockData, hsel]
      | some c =>
        cases hlast : (cleanSeries c.values).getLast? with
        | none => simp [fetchStockData, hsel, hlast]
        | some lp => simp [fetchStockData, hsel, hlast]

theorem map_symbol_fetch (env : String → SymEnv) (L : List String) :
    (L.map (fun s => fetchStockData s (env s))).map Entry.symbol = L := by
  rw [List.map_map]
  have h : ∀ s ∈ L, (Entry.symbol ∘ fun s => fetchStockData s (env s)) s =
      id s := by
    intro s _
    simp [fetchStockData_symbol]
  rw [List.map_congr_left h, List.map_id]

theorem filterQuery_nodup (q : String) {L : List String} (h : L.Nodup) :
    (filterQuery L q).Nodup := by
  unfold filterQuery
  by_cases hq : q = ""
  · simpa [hq]
  · simp only [hq, if_false]
    exact h.filter _

set_option maxRecDepth 1000000 in
theorem fno_stocks_nodup : FNO_STOCKS.Nodup := by decide

set_option maxRecDepth 1000000 in
theorem nifty_next_50_nodup : NIFTY_NEXT_50_STOCKS.Nodup := by decide

/-! ## Claim theorems -/

/-- C1: for every weekly close-price series of length `w` processed by the
200-week computation, the result reports `weeks_used = min w 200`, and the
reported average is exactly the arithmetic mean of the last `min w 200`
samples, being `none` exactly when the series is empty. -/
theorem c1_weeks_used_and_avg (s : List ℚ) :
    (get200weekCore s).weeksUsed = min s.length 200 ∧
    (get200weekCore s).avg200 =
      (if s.length = 0 then none
       else some (mean (lastN (min s.length 200) s))) := by
  refine ⟨rfl, ?_⟩
  have hproj : (get200weekCore s).avg200 = avg200OfSeries s := rfl
  rw [hproj, avg200OfSeries]
  by_cases h : s.length = 0
  · have hs : s = [] := List.length_eq_zero.mp h
    subst hs
    simp [lastN]
  · have hne : (lastN 200 s).isEmpty = false :=
      lastN_isEmpty_false (by omega) h
    rw [lastN_min]
    simp [hne, h]

/-- C2 counterexample: in `get_all_averages`, with the 200-week average
missing and a latest price of 100, the recommendation is neutral but its
message is the formatted latest-price text, not an insufficient-data
message — refuting the claim that a null average always yields the
insufficient-data message. -/
theorem c2_counterexample :
    recAll 100 none = (RecType.neutral, Msg.latestPriceOnly 100) ∧
    Msg.isInsufficient (recAll 100 none).2 = false := by
  decide

/-- C2 (amended): recommendation derivation is total; in
`get_200_week_average` the exact tie-break rule holds and any null side
gives neutral with the insufficient-data message; in `get_all_averages`
the same tie-break rule holds, but a null average gives neutral with the
latest-price message unless the latest price is zero, in which case the
insufficient-data message is used. -/
theorem c2_recommendation_rule (lp a : ℚ) (olp oavg : Option ℚ) :
    (rec200 (some lp) (some a) =
      if lp < a then (RecType.buy, Msg.buy200w)
      else if lp > a then (RecType.avoid, Msg.avoid200w)
      else (RecType.neutral, Msg.equal200w)) ∧
    ((olp = none ∨ oavg = none) →
      rec200 olp oavg = (RecType.neutral, Msg.insufficient200w)) ∧
    (recAll lp (some a) =
      if lp < a then (RecType.buy, Msg.buyAll)
      else if lp > a then (RecType.avoid, Msg.avoidAll)
      else (RecType.neutral, Msg.equalAll)) ∧
    (recAll lp none =
      (RecType.neutral,
        if lp = 0 then Msg.insufficientAll else Msg.latestPriceOnly lp)) := by
  refine ⟨rfl, ?_, rfl, rfl⟩
  rintro (h | h) <;> subst h
  · cases oavg <;> rfl
  · cases olp <;> rfl

/-- C2 witness: at latest price 1 and average 2 the 200-week site says buy,
and with a missing latest price it says neutral/insufficient. -/
theorem c2_recommendation_rule_witness :
    rec200 none (some 2) = (RecType.neutral, Msg.insufficient200w) :=
  (c2_recommendation_rule 1 2 none (some 2)).2.1 (Or.inl rfl)

/-- C4: for every daily close-price series and every window in
{5, 20, 50, 100, 200}, `_calculate_moving_average` returns `none` when the
series has fewer than `window` samples and otherwise exactly the
arithmetic mean of the last `window` samples. -/
theorem c4_trailing_mean (s : List ℚ) (w : Nat)
    (hw : w = 5 ∨ w = 20 ∨ w = 50 ∨ w = 100 ∨ w = 200) :
    calcMA (.ok (s.map some)) w =
      if s.length < w then none else some (mean (lastN w s)) := by
  have hw5 : 5 ≤ w := by rcases hw with h | h | h | h | h <;> omega
  have hclean : cleanSeries (s.map some) = s := by
    simp [cleanSeries]
  cases s with
  | nil =>
    have h0 : (0 : Nat) < w := by omega
    simp [calcMA, h0]
  | cons a t =>
    simp only [calcMA, List.map_cons, List.isEmpty_cons, Bool.false_eq_true,
      if_false]
    rw [show cleanSeries (some a :: List.map some t) = a :: t from hclean]
    by_cases hlt : (a :: t).length < w
    · rw [if_pos hlt, if_pos hlt]
    · have hemp : (lastN w (a :: t)).isEmpty = false :=
        lastN_isEmpty_false (by omega) (by simp)
      simp [hlt, hemp]

/-- C4 witness: the 5-day trailing mean of [1,2,3,4,5,6] is 4. -/
theorem c4_trailing_mean_witness :
    calcMA (.ok ([1, 2, 3, 4, 5, 6].map some)) 5 = some 4 :=
  (c4_trailing_mean [1, 2, 3, 4, 5, 6] 5 (by decide)).trans
    (by norm_num [mean, lastN])

/-- C5 counterexample: under a probe for which "AAPL" resolves bare,
`normalize_ticker` does return "AAPL", but `get_200_week_average` does not
consult any probe and rewrites "AAPL" to "AAPL.NS" — so it is not the case
that a bare-resolvable symbol yields itself on every pipeline path. -/
theorem c5_counterexample :
    (normalizeTicker (fun s => s = "AAPL") "AAPL").1 = "AAPL" ∧
    ticker200w "AAPL" = "AAPL.NS" ∧
    ("AAPL.NS" : String) ≠ "AAPL" := by
  refine ⟨by decide, by decide, by decide⟩

/-- C5 (amended): `normalize_ticker` never fails and follows the claimed
four cases (qualified input returned trimmed/upper-cased with zero probes;
bare-resolvable returned bare; else suffixed if the ".NS" form resolves;
else the bare symbol), and "^NSEI" is returned unchanged with zero probes
on every path — but `get_200_week_average` bypasses `normalize_ticker`,
appending ".NS" to every unqualified symbol with zero probes, so a
bare-resolvable symbol is suffixed on that path. -/
theorem c5_normalize_cases (probe : String → Bool) (raw : String) :
    (qualified (pyNormCase raw) = true →
      normalizeTicker probe raw = (pyNormCase raw, 0) ∧
      ticker200w raw = pyNormCase raw) ∧
    (qualified (pyNormCase raw) = false →
      ticker200w raw = pyNormCase raw ++ ".NS") ∧
    (qualified (pyNormCase raw) = false → probe (pyNormCase raw) = true →
      normalizeTicker probe raw = (pyNormCase raw, 1)) ∧
    (qualified (pyNormCase raw) = false → probe (pyNormCase raw) = false →
      probe (pyNormCase raw ++ ".NS") = true →
      normalizeTicker probe raw = (pyNormCase raw ++ ".NS", 2)) ∧
    (qualified (pyNormCase raw) = false → probe (pyNormCase raw) = false →
      probe (pyNormCase raw ++ ".NS") = false →
      normalizeTicker probe raw = (pyNormCase raw, 2)) := by
  refine ⟨fun h1 => ?_, fun h1 => ?_, fun h1 h2 => ?_, fun h1 h2 h3 => ?_,
    fun h1 h2 h3 => ?_⟩
  · exact ⟨by simp [normalizeTicker, h1], by simp [ticker200w, h1]⟩
  · simp [ticker200w, h1]
  · simp [normalizeTicker, h1, h2]
  · simp [normalizeTicker, h1, h2, h3]
  · simp [normalizeTicker, h1, h2, h3]

/-- C5 witness: "^NSEI" is already qualified, so it is returned unchanged
with zero probes (any probe), and the 200-week path leaves it alone too. -/
theorem c5_normalize_cases_witness :
    normalizeTicker (fun _ => false) "^NSEI" = ("^NSEI", 0) ∧
    ticker200w "^NSEI" = "^NSEI" :=
  (c5_normalize_cases (fun _ => false) "^NSEI").1 (by decide)

/-- C9: `get_daily_series` always returns dates and closes lists of equal
length (non-numeric entries dropped from both together), and returns the
two empty lists, rather than raising, when no data could be obtained. -/
theorem c9_daily_series (t : Option Table) :
    ((getDailySeries t).1.length = (getDailySeries t).2.length) ∧
    getDailySeries none = ([], []) := by
  refine ⟨?_, rfl⟩
  cases t with
  | none => rfl
  | some tbl =>
    cases hsel : selectDaily tbl.cols with
    | none => simp [getDailySeries, hsel]
    | some c => simp [getDailySeries, hsel]

/-- C10: every watch-list entry satisfies the invariant: status is
"success" iff the price is non-null, and any non-success entry (no_data or
error) has both price and 200-week average null. -/
theorem c10_entry_invariant (sym : String) (env : SymEnv) :
    ((fetchStockData sym env).status = Status.success ↔
      (fetchStockData sym env).price ≠ none) ∧
    ((fetchStockData sym env).status ≠ Status.success →
      (fetchStockData sym env).price = none ∧
      (fetchStockData sym env).avg200w = none) := by
  obtain ⟨hist, avg⟩ := env
  cases hist with
  | error e => simp [fetchStockData]
  | ok od =>
    cases od with
    | none => simp [fetchStockData]
    | some tbl =>
      cases hsel : selectBatch tbl.cols with
      | none => simp [fetchStockData, hsel]
      | some c =>
        cases hlast : (cleanSeries c.values).getLast? with
        | none => simp [fetchStockData, hsel, hlast]
        | some lp => simp [fetchStockData, hsel, hlast]

/-- C3 counterexample: with the latest price obtained fine (close 100) and
every daily-average oracle healthy, a failure of just the 200-week weekly
fetch (empty frame) makes `get_all_averages` raise
"Failed to calculate averages: ..." instead of degrading `avg_200w` to
null — refuting the claim that a failure of any individual moving average
never aborts the computation. -/
theorem c3_counterexample :
    getAllAverages "AAPL"
      { daily10 := .ok [some 100]
        ma5 := ⟨.ok none, .ok [some 1]⟩
        ma20 := ⟨.ok none, .ok [some 1]⟩
        ma50 := ⟨.ok none, .ok [some 1]⟩
        ma100 := ⟨.ok none, .ok [some 1]⟩
        ma200 := ⟨.ok none, .ok [some 1]⟩
        weekly := .ok []
        info52 := .ok (none, none) } =
      .error "Failed to calculate averages: No weekly data found for ticker" := by
  rfl

/-- C3 (amended): in `get_all_averages`, a failure to obtain the latest
price propagates as an error; when the latest price and the 200-week call
both succeed, the call succeeds and each of the 5d/20d/50d/100d/200d
fields is exactly its own (total, exception-swallowing)
`get_moving_average` result, so a failure of any of those only nulls that
field; but a failure of the 200-week average itself aborts the whole call
with a "Failed to calculate averages" error. -/
theorem c3_error_asymmetry (ticker : String) (env : AllEnv) :
    (∀ e, env.daily10 = Except.error e →
      getAllAverages ticker env =
        Except.error ("Failed to fetch latest price: " ++ e)) ∧
    (∀ lp r, getLatestPrice env.daily10 ticker = Except.ok lp →
      get200week env.weekly = Except.ok r →
      getAllAverages ticker env = Except.ok
        { latestPrice := lp
          avg5d := getMA env.ma5 5
          avg20d := getMA env.ma20 20
          avg50d := getMA env.ma50 50
          avg100d := getMA env.ma100 100
          avg200d := getMA env.ma200 200
          avg200w := r.avg200
          week52High := (match env.info52 with
            | .error _ => (none, none)
            | .ok p => p).1
          week52Low := (match env.info52 with
            | .error _ => (none, none)
            | .ok p => p).2
          recType := (recAll lp r.avg200).1
          recText := (recAll lp r.avg200).2 }) ∧
    (∀ lp e, getLatestPrice env.daily10 ticker = Except.ok lp →
      get200week env.weekly = Except.error e →
      getAllAverages ticker env =
        Except.error ("Failed to calculate averages: " ++ e)) := by
  refine ⟨fun e he => ?_, fun lp r h1 h2 => ?_, fun lp e h1 h2 => ?_⟩
  · unfold getAllAverages getLatestPrice
    rw [he]
  · unfold getAllAverages
    rw [h1, h2]
  · unfold getAllAverages
    rw [h1, h2]

/-- C3 witness: a latest-price fetch exception is fatal for the call. -/
theorem c3_error_asymmetry_witness :
    getAllAverages "X"
      { daily10 := .error "boom"
        ma5 := ⟨.ok none, .ok []⟩
        ma20 := ⟨.ok none, .ok []⟩
        ma50 := ⟨.ok none, .ok []⟩
        ma100 := ⟨.ok none, .ok []⟩
        ma200 := ⟨.ok none, .ok []⟩
        weekly := .ok []
        info52 := .ok (none, none) } =
      .error "Failed to fetch latest price: boom" :=
  (c3_error_asymmetry "X"
    { daily10 := .error "boom"
      ma5 := ⟨.ok none, .ok []⟩
      ma20 := ⟨.ok none, .ok []⟩
      ma50 := ⟨.ok none, .ok []⟩
      ma100 := ⟨.ok none, .ok []⟩
      ma200 := ⟨.ok none, .ok []⟩
      weekly := .ok []
      info52 := .ok (none, none) }).1 "boom" rfl

/-- C6 counterexample: on a table whose columns are "Close" then
"Adj Close", `get_daily_series` selects the plain close column (its scan
breaks on "Close" before ever seeing "Adj Close"), while the specified
preference order selects the adjusted close — refuting "every
series-fetching operation selects by the same preference order". -/
theorem c6_counterexample :
    selectDaily [⟨"Close", true, []⟩, ⟨"Adj Close", true, []⟩] =
      some ⟨"Close", true, []⟩ ∧
    specSelect [⟨"Close", true, []⟩, ⟨"Adj Close", true, []⟩] =
      some ⟨"Adj Close", true, []⟩ ∧
    selectDaily [⟨"Close", true, []⟩, ⟨"Adj Close", true, []⟩] ≠
      specSelect [⟨"Close", true, []⟩, ⟨"Adj Close", true, []⟩] := by
  refine ⟨by decide, by decide, by decide⟩

/-- C6 (amended): for provider tables with at most one "Adj Close" column,
at most one "Close" column, and no other column whose name contains
"Close", the selection in `get_200_week_average` and in
`get_all_averages`/`_calculate_moving_average` follows the specified
preference order (adjusted close, else plain close, else first numeric
column); `get_daily_series` alone inverts the first two preferences: it
picks the "Close" column whenever one is present and follows the
specified order only in its absence. -/
theorem c6_column_policy (cols : List Col)
    (h1 : cols.countP (fun c => c.name = "Adj Close") ≤ 1)
    (h2 : cols.countP (fun c => c.name = "Close") ≤ 1)
    (h3 : ∀ c ∈ cols, c.name = "Adj Close" ∨ c.name = "Close" ∨
      containsClose c.name = false) :
    select200w cols = specSelect cols ∧
    selectPref cols = specSelect cols ∧
    selectDaily cols =
      (match cols.find? (fun c => c.name = "Close") with
       | some c => some c
       | none => specSelect cols) :=
  ⟨select200w_eq_spec cols h3, selectPref_eq_spec cols h2,
    selectDaily_eq cols h1⟩

/-- C6 witness: on an Open/Close/Adj Close/Volume table every selector
resolves, the first two to the adjusted close. -/
theorem c6_column_policy_witness :
    select200w [⟨"Open", true, []⟩, ⟨"Close", true, []⟩,
        ⟨"Adj Close", true, []⟩, ⟨"Volume", true, []⟩] =
      specSelect [⟨"Open", true, []⟩, ⟨"Close", true, []⟩,
        ⟨"Adj Close", true, []⟩, ⟨"Volume", true, []⟩] ∧
    specSelect [⟨"Open", true, []⟩, ⟨"Close", true, []⟩,
        ⟨"Adj Close", true, []⟩, ⟨"Volume", true, []⟩] =
      some ⟨"Adj Close", true, []⟩ :=
  ⟨(c6_column_policy [⟨"Open", true, []⟩, ⟨"Close", true, []⟩,
      ⟨"Adj Close", true, []⟩, ⟨"Volume", true, []⟩]
      (by decide) (by decide) (by decide)).1, by decide⟩

/-- C7: both batch fetchers return exactly one entry per symbol of the
prefix-filtered input list (the symbol projection of the results is the
filtered list itself, which has no duplicates), each symbol's entry is
computed from that symbol's own oracles alone, a per-symbol history
exception is downgraded to a status=error(message) entry, and a per-symbol
200-week-average exception only nulls `avg_200w` (it is indistinguishable
from the average being absent) — never aborting the other entries. -/
theorem c7_batch_isolation (q : String) (env : String → SymEnv) :
    ((getFnoStocksWithPrices q env).map Entry.symbol =
      filterQuery FNO_STOCKS q) ∧
    (filterQuery FNO_STOCKS q).Nodup ∧
    ((getNiftyNext50StocksWithPrices q env).map Entry.symbol =
      filterQuery NIFTY_NEXT_50_STOCKS q) ∧
    (filterQuery NIFTY_NEXT_50_STOCKS q).Nodup ∧
    (∀ s, s ∈ filterQuery FNO_STOCKS q →
      fetchStockData s (env s) ∈ getFnoStocksWithPrices q env) ∧
    (∀ s, s ∈ filterQuery NIFTY_NEXT_50_STOCKS q →
      fetchStockData s (env s) ∈ getNiftyNext50StocksWithPrices q env) ∧
    (∀ s e1 a, fetchStockData s ⟨Except.error e1, a⟩ =
      ⟨s, none, none, .err ("error: " ++ e1)⟩) ∧
    (∀ s h e1, fetchStockData s ⟨h, Except.error e1⟩ =
      fetchStockData s ⟨h, Except.ok none⟩) := by
  refine ⟨map_symbol_fetch env _, filterQuery_nodup q fno_stocks_nodup,
    map_symbol_fetch env _, filterQuery_nodup q nifty_next_50_nodup,
    fun s hs => List.mem_map_of_mem _ hs, fun s hs => List.mem_map_of_mem _ hs,
    fun s e1 a => rfl, fun s h e1 => ?_⟩
  cases h with
  | error e2 => rfl
  | ok od =>
    cases od with
    | none => rfl
    | some tbl =>
      cases hsel : selectBatch tbl.cols with
      | none => simp [fetchStockData, hsel]
      | some c =>
        cases hlast : (cleanSeries c.values).getLast? with
        | none => simp [fetchStockData, hsel, hlast]
        | some lp => simp [fetchStockData, hsel, hlast]

/-- C7 witness: with the empty query, RELIANCE is in the FNO watch list
and its entry is in the batch result. -/
theorem c7_batch_isolation_witness :
    fetchStockData "RELIANCE"
        ((fun _ => SymEnv.mk (.ok none) (.ok none)) "RELIANCE") ∈
      getFnoStocksWithPrices "" (fun _ => ⟨.ok none, .ok none⟩) :=
  (c7_batch_isolation "" (fun _ => ⟨.ok none, .ok none⟩)).2.2.2.2.1
    "RELIANCE" (by decide)

/-- C8 counterexample: with a stale snapshot cached (fetched at time 0,
queried at time 4000) that would match the query "REL", a failing refresh
makes the lookup return the empty list, not the stale snapshot's rows —
refuting "returns the stale cached snapshot if one is present". -/
theorem c8_counterexample :
    (searchNseStocks "REL" 20
      ⟨some [("RELIANCE", "Reliance Industries Limited")], some 0⟩
      4000 (.error "connection refused")).1 = [] ∧
    filterRows [("RELIANCE", "Reliance Industries Limited")] "REL" 20 =
      [("RELIANCE", "Reliance Industries Limited")] := by
  exact ⟨by decide, by decide⟩

/-- C8 (amended): the directory is fetched at most once per hour — while
the snapshot is younger than 3600 seconds the cache is served and the
remote source is not consulted at all (the lookup result does not depend
on it) — and on a refresh failure the lookup returns the empty list with
the cache unchanged (the stale snapshot is not served), never propagating
the fetch error. -/
theorem c8_cache_behavior (q : String) (limit : Nat) (d : List DirRow)
    (ts now : Nat) (remote remote' : Except String (List DirRow))
    (cache : CacheState) :
    (now - ts < 3600 →
      fetchNseCsv ⟨some d, some ts⟩ now remote =
        .ok (d, ⟨some d, some ts⟩) ∧
      searchNseStocks q limit ⟨some d, some ts⟩ now remote =
        searchNseStocks q limit ⟨some d, some ts⟩ now remote') ∧
    (∀ e, fetchNseCsv cache now remote = .error e →
      searchNseStocks q limit cache now remote = ([], cache)) := by
  constructor
  · intro h
    have hf : ∀ r, fetchNseCsv ⟨some d, some ts⟩ now r =
        .ok (d, ⟨some d, some ts⟩) := by
      intro r
      simp [fetchNseCsv, h]
    refine ⟨hf remote, ?_⟩
    by_cases hq : (q = "" ∨ pyStrip q = "")
    · simp [searchNseStocks, hq]
    · simp [searchNseStocks, hq, hf remote, hf remote']
  · intro e he
    by_cases hq : (q = "" ∨ pyStrip q = "")
    · simp [searchNseStocks, hq]
    · simp [searchNseStocks, hq, he]

/-- C8 witness: a cached snapshot 100 seconds old is reused even when the
remote source is down. -/
theorem c8_cache_behavior_witness :
    fetchNseCsv ⟨some [("TCS", "Tata Consultancy Services")], some 100⟩ 200
        (.error "down") =
      .ok ([("TCS", "Tata Consultancy Services")],
        ⟨some [("TCS", "Tata Consultancy Services")], some 100⟩) :=
  ((c8_cache_behavior "T" 5 [("TCS", "Tata Consultancy Services")] 100 200
    (.error "down") (.ok []) ⟨none, none⟩).1 (by decide)).1

/-- C10 witness: an empty-frame entry is no_data with null price and null
average. -/
theorem c10_entry_invariant_witness :
    (fetchStockData "X" ⟨.ok none, .ok none⟩).price = none ∧
    (fetchStockData "X" ⟨.ok none, .ok none⟩).avg200w = none :=
  (c10_entry_invariant "X" ⟨.ok none, .ok none⟩).2 (by decide)

end StocksAvg
